import Mathlib

/-!
Shallow embedding of the ai-jersey-designer serverless functions.

The repository contains three HTTP handler variants and one Google Apps
Script function, all forwarding a prompt (and optionally a base64 logo
image) to a generative-image API:

* netlify/functions/generateImage.js — Imagen predict endpoint, prompt
  only, with the callApiWithBackoff retry wrapper (model below:
  generateImage_handler).
* src/unnamed/part_001 — Gemini generateContent endpoint, prompt plus
  logo, with the same callApiWithBackoff wrapper (model below:
  part001_handler).
* netlify/functions/generate-jersey.js — Gemini generateContent
  endpoint, single fetch, no retry wrapper (model below:
  jersey_handler).
* src/unnamed/part_000 — Google Apps Script generateImage with an
  inline retry loop (model below: appsScript_generateImage).

Strings are modelled as lists of characters.  JavaScript undefined is
modelled with Option; JavaScript string truthiness (undefined and the
empty string are falsy) is truthyStr.  Thrown JavaScript errors are
modelled structurally by JsError; the environment (the upstream server)
is a script assigning to each fetch index an Attempt, carrying the HTTP
status, the raw body text and the parse result of that body (none when
the body is not well-formed JSON).
-/

abbrev Str := List Char

/-- JavaScript truthiness of an optional string: undefined and the empty
string are falsy. -/
def truthyStr : Option Str → Bool
  | none => false
  | some s => !s.isEmpty

/-- response.ok of the Fetch API: status in the range 200..299. -/
def jsOk (status : Nat) : Bool := decide (200 ≤ status ∧ status ≤ 299)

def natToStr (n : Nat) : Str := (Nat.repr n).data

/-- One element of a safetyRatings array of the upstream response. -/
structure SafetyRating where
  category : Str
  probability : Str
deriving DecidableEq

structure InlineData where
  mimeType : Option Str
  data : Option Str
deriving DecidableEq

structure ContentPart where
  text : Option Str
  inlineData : Option InlineData
deriving DecidableEq

structure Content where
  parts : Option (List ContentPart)
deriving DecidableEq

structure Candidate where
  content : Option Content
  safetyRatings : Option (List SafetyRating)
deriving DecidableEq

structure Prediction where
  bytesBase64Encoded : Option Str
deriving DecidableEq

structure ApiErrorInfo where
  message : Option Str
deriving DecidableEq

/-- A parsed upstream JSON body: the predict shape (predictions), the
generateContent shape (candidates) and the error shape used by the
quota-error unwrapping all live in one record, each field optional. -/
structure UpstreamJson where
  predictions : Option (List Prediction)
  candidates : Option (List Candidate)
  error : Option ApiErrorInfo
deriving DecidableEq

structure LogoData where
  mimeType : Option Str
  data : Option Str
deriving DecidableEq

structure RequestBody where
  prompt : Option Str
  logoData : Option LogoData
deriving DecidableEq

/-- An inbound Netlify event: the HTTP method and the JSON.parse result
of the raw body (none when the raw body is not well-formed JSON). -/
structure Event where
  httpMethod : Str
  body : Option RequestBody
deriving DecidableEq

/-- One scripted upstream fetch outcome: either an HTTP response (status,
body text, parse result of the body text) or a rejection of the fetch
itself. -/
inductive Attempt where
  | http (status : Nat) (bodyText : Str) (bodyJson : Option UpstreamJson)
  | netThrow (msg : Str)
deriving DecidableEq

/-- A thrown JavaScript error, kept structural so that the catch-branch
message unwrapping can be modelled faithfully. -/
inductive JsError where
  | apiError (status : Nat) (bodyText : Str) (bodyJson : Option UpstreamJson)
  | typeError (prop : Str)
  | netError (msg : Str)
  | jsonParseError (msg : Str)
deriving DecidableEq

/-- The .message field of the corresponding JavaScript Error object. -/
def errMessage : JsError → Str
  | JsError.apiError status bodyText _ =>
      "External API Error ".data ++ natToStr status ++ ": ".data ++ bodyText
  | JsError.typeError prop =>
      "Cannot read properties of undefined (reading \x27".data ++ prop ++ "\x27)".data
  | JsError.netError msg => msg
  | JsError.jsonParseError msg => msg

/-- The catch-branch unwrapping of generateImage.js and part_001: the
regex match of External API Error followed by digits recovers the error
body text, JSON.parse of that text is the bodyJson carried by the error,
and a truthy error.message field replaces the message.  Messages of the
other error kinds never match the pattern. -/
def unwrapApiError : JsError → Str
  | JsError.apiError status bodyText (some pj) =>
      match pj.error with
      | some ae =>
          match ae.message with
          | some m =>
              if m.isEmpty then errMessage (JsError.apiError status bodyText (some pj)) else m
          | none => errMessage (JsError.apiError status bodyText (some pj))
      | none => errMessage (JsError.apiError status bodyText (some pj))
  | e => errMessage e

/-- Result of one iteration body of the callApiWithBackoff loop. -/
inductive StepRes where
  | retry429
  | ret (j : UpstreamJson)
  | thr (e : JsError)
deriving DecidableEq

/-- One iteration of the callApiWithBackoff loop body, before the
surrounding try/catch: a 429 waits and continues, any other non-2xx
status throws the External API Error carrying status and body text, an
ok status returns the parsed body or throws a parse error. -/
def attemptStep : Attempt → StepRes
  | Attempt.netThrow msg => StepRes.thr (JsError.netError msg)
  | Attempt.http status bodyText bodyJson =>
      if status = 429 then StepRes.retry429
      else if jsOk status = false then StepRes.thr (JsError.apiError status bodyText bodyJson)
      else
        match bodyJson with
        | some j => StepRes.ret j
        | none => StepRes.thr (JsError.jsonParseError bodyText)

/-- Outcome of callApiWithBackoff: value (some j) models returning the
parsed JSON, value none models falling out of the for loop and returning
undefined, thrown models an error propagating to the caller. -/
inductive CallOutcome where
  | value (j : Option UpstreamJson)
  | thrown (e : JsError)
deriving DecidableEq

/-- The for loop of callApiWithBackoff from iteration i with the given
number of iterations left.  The catch swallows a thrown error and lets
the loop continue unless the iteration is the last one; a 429 always
waits and continues, even on the last iteration, after which the loop
ends and the function returns undefined.  The second component counts
the fetches performed. -/
def backoffFrom (script : Nat → Attempt) : Nat → Nat → CallOutcome × Nat
  | _, 0 => (CallOutcome.value none, 0)
  | i, fuel + 1 =>
      match attemptStep (script i) with
      | StepRes.retry429 =>
          let r := backoffFrom script (i + 1) fuel
          (r.1, r.2 + 1)
      | StepRes.ret j => (CallOutcome.value (some j), 1)
      | StepRes.thr e =>
          if fuel = 0 then (CallOutcome.thrown e, 1)
          else
            let r := backoffFrom script (i + 1) fuel
            (r.1, r.2 + 1)

/-- callApiWithBackoff of generateImage.js and part_001 (retries
defaults to 3 at both call sites). -/
def callApiWithBackoff (script : Nat → Attempt) (retries : Nat) : CallOutcome × Nat :=
  backoffFrom script 0 retries

/-- JavaScript String.split on a single-character separator. -/
def splitOn (sep : Char) : Str → List Str
  | [] => [[]]
  | c :: rest =>
      if c = sep then [] :: splitOn sep rest
      else
        match splitOn sep rest with
        | [] => [[c]]
        | g :: gs => (c :: g) :: gs

/-- The characters strictly before the first occurrence of sep. -/
def takeBeforeChar (sep : Char) : Str → Str
  | [] => []
  | c :: rest => if c = sep then [] else c :: takeBeforeChar sep rest

/-- The characters strictly after the first occurrence of sep. -/
def dropThroughChar (sep : Char) : Str → Str
  | [] => []
  | c :: rest => if c = sep then rest else dropThroughChar sep rest

/-- Modelled from the spec wording of the stripping property: the
substring of the data after the first comma. -/
def specAfterFirstComma (d : Str) : Str := dropThroughChar ',' d

/-- part_001 lines 52-56: if logoData.data contains a comma, replace it
by split(comma)[1], the segment between the first and the second comma. -/
def rawBase64DataOf (d : Str) : Str :=
  if ',' ∈ d then (splitOn ',' d).getD 1 [] else d

/-- r.category.split(underscore).pop(): the last underscore-separated
segment of a safety-rating category. -/
def lastSeg (s : Str) : Str := (splitOn '_' s).getLastD []

/-- The per-rating formatting used by both backoff handlers. -/
def fmtRating (r : SafetyRating) : Str :=
  lastSeg r.category ++ ": ".data ++ r.probability

/-- JavaScript Array.join on a separator string. -/
def joinSep (sep : Str) : List Str → Str
  | [] => []
  | [x] => x
  | x :: y :: ys => x ++ sep ++ joinSep sep (y :: ys)

/-- map(fmtRating).join(semicolon-space) over a safetyRatings array. -/
def safetyRatingJoined (rs : List SafetyRating) : Str :=
  joinSep "; ".data (rs.map fmtRating)

/-- candidates[0]?.safetyRatings?.map(...).join(...) given the parsed
response; undefined when there is no candidate or no safetyRatings. -/
def safetyRatingOf (j : UpstreamJson) : Option Str :=
  match j.candidates with
  | none => none
  | some cs =>
      match cs.head? with
      | none => none
      | some c => c.safetyRatings.map safetyRatingJoined

/-- parts.find(p => p.inlineData): the first part whose inlineData is
defined (objects are truthy). -/
def findInlinePart (parts : List ContentPart) : Option ContentPart :=
  parts.find? (fun p => p.inlineData.isSome)

/-- response?.candidates?.[0]?.content?.parts?.find(p =>
p.inlineData)?.inlineData?.data, the generateContent extraction chain,
applied to a defined parsed response (the undefined-response case is
handled separately at each call site). -/
def extractBase64 (j : UpstreamJson) : Option Str :=
  match j.candidates with
  | none => none
  | some cs =>
      match cs.head? with
      | none => none
      | some c =>
          match c.content with
          | none => none
          | some ct =>
              match ct.parts with
              | none => none
              | some ps =>
                  match findInlinePart ps with
                  | none => none
                  | some p =>
                      match p.inlineData with
                      | some idata => idata.data
                      | none => none

/-- The body of a handler response: no body (preflight), a plain text
body, or a JSON body of one of the three shapes the sources produce. -/
inductive RespBody where
  | noBody
  | text (s : Str)
  | jsonError (msg : Str)
  | jsonImageUrl (url : Str)
  | jsonBase64 (data : Str)
deriving DecidableEq

structure HttpResp where
  statusCode : Nat
  headers : List (Str × Str)
  body : RespBody
deriving DecidableEq

def isJsonError : RespBody → Bool
  | RespBody.jsonError _ => true
  | _ => false

/-- The payload sent upstream: the predict shape (instances with a lone
prompt) or the generateContent shape (a text part and an inlineData
part). -/
inductive UpstreamPayload where
  | predictBody (prompt : Str)
  | generateBody (text : Option Str) (mimeType : Option Str) (data : Option Str)
deriving DecidableEq

/-- The data field of the inlineData part of a payload, when present. -/
def forwardedData : UpstreamPayload → Option Str
  | UpstreamPayload.predictBody _ => none
  | UpstreamPayload.generateBody _ _ d => d

/-- generate-jersey.js lines 52-67: the payload forwards logoData.data
unchanged. -/
def jersey_payload (prompt : Option Str) (ld : LogoData) : UpstreamPayload :=
  UpstreamPayload.generateBody prompt ld.mimeType ld.data

/-- One full handler invocation: the response, the number of upstream
fetches performed, and the payload handed to fetch (none when no fetch
was made). -/
structure HandlerRun where
  resp : HttpResp
  fetchCount : Nat
  payload : Option UpstreamPayload
deriving DecidableEq

def CORS_HEADERS : List (Str × Str) :=
  [ ("Access-Control-Allow-Origin".data, "*".data),
    ("Access-Control-Allow-Methods".data, "POST, OPTIONS".data),
    ("Access-Control-Allow-Headers".data, "Content-Type".data) ]

/-- The lone allow-origin header object used inline by generate-jersey.js. -/
def ALLOW_ORIGIN_HEADERS : List (Str × Str) :=
  [ ("Access-Control-Allow-Origin".data, "*".data) ]

def hasAllowOrigin (hs : List (Str × Str)) : Bool :=
  hs.any (fun p => p.1 == "Access-Control-Allow-Origin".data)

def msgMethodNotAllowed : Str := "Method Not Allowed".data
def msgMissingPrompt : Str := "Missing prompt".data
def msgApiKeyMissing : Str := "CRITICAL: API Key not configured on the server.".data
def msgInputRejected : Str :=
  "Generation Error: The input or prompt may violate safety guidelines, or the model failed to generate output.".data
def msgFilteredPre : Str := "Image was filtered by safety systems. Ratings: ".data
def msgNoExtract : Str :=
  "Could not extract image data from API response (check Netlify logs for full response).".data
def msgGenerationErrorPre : Str := "Generation Error: ".data
def msgCatchPre : Str := "Generation Error: Failed to generate image. ".data
def msgJerseyCatchPre : Str := "Internal server error: ".data
def msgJerseyNoData : Str := "Image generation failed to return data.".data
def msgJerseyDefault : Str := "Gemini API call failed.".data
def dataUriPre : Str := "data:image/png;base64,".data

/-- The catch branch shared by generateImage.js and part_001: a 500 with
the unwrapped message appended to the fixed prefix. -/
def backoffCatchResponse (e : JsError) : HttpResp :=
  { statusCode := 500, headers := CORS_HEADERS,
    body := RespBody.jsonError (msgCatchPre ++ unwrapApiError e) }

/-- The catch branch of generate-jersey.js: a 500 with the raw message. -/
def jerseyCatchResponse (e : JsError) : HttpResp :=
  { statusCode := 500, headers := ALLOW_ORIGIN_HEADERS,
    body := RespBody.jsonError (msgJerseyCatchPre ++ errMessage e) }

/-- The error message chosen when no image data was extracted, shared by
generateImage.js and part_001: the safety-ratings summary when the
joined ratings string is truthy, the generic message otherwise. -/
def noImageErrorMessage (sr : Option Str) : Str :=
  if truthyStr sr = true then msgFilteredPre ++ sr.getD []
  else msgNoExtract

/-- part_001 lines 115-161: the branch on the parsed upstream response
after a successful callApiWithBackoff.  candidates is response.candidates
defaulted to the empty array ([] is truthy in JavaScript, so the default
applies only when the field is undefined); the safety-rating string is
computed from candidates[0] when the array is non-empty. -/
def part001_handleResponse (j : UpstreamJson) : HttpResp :=
  if truthyStr (extractBase64 j) = true then
    { statusCode := 200, headers := CORS_HEADERS,
      body := RespBody.jsonImageUrl (dataUriPre ++ (extractBase64 j).getD []) }
  else
    if (j.candidates.getD []).length = 0 then
      { statusCode := 400, headers := CORS_HEADERS,
        body := RespBody.jsonError msgInputRejected }
    else
      { statusCode := 500, headers := CORS_HEADERS,
        body := RespBody.jsonError (msgGenerationErrorPre ++
          noImageErrorMessage
            (match (j.candidates.getD []).head? with
             | some c => c.safetyRatings.map safetyRatingJoined
             | none => none)) }

/-- generateImage.js lines 92-125: the branch on the parsed predict
response.  predictions?.[0] is truthy exactly when the predictions field
is defined and non-empty; the prediction-and-bytesBase64Encoded guard
then also requires a truthy (present, non-empty) base64 field, otherwise
the safety-rating fallback probes the candidates field. -/
def generateImage_handleResponse (j : UpstreamJson) : HttpResp :=
  match j.predictions with
  | some (p :: _) =>
      if truthyStr p.bytesBase64Encoded = true then
        { statusCode := 200, headers := CORS_HEADERS,
          body := RespBody.jsonImageUrl (dataUriPre ++ p.bytesBase64Encoded.getD []) }
      else
        { statusCode := 500, headers := CORS_HEADERS,
          body := RespBody.jsonError (msgGenerationErrorPre ++ noImageErrorMessage (safetyRatingOf j)) }
  | _ =>
      { statusCode := 500, headers := CORS_HEADERS,
        body := RespBody.jsonError (msgGenerationErrorPre ++ noImageErrorMessage (safetyRatingOf j)) }

def sOPTIONS : Str := "OPTIONS".data
def sPOST : Str := "POST".data

/-- The handler of src/unnamed/part_001 (generateContent endpoint with
callApiWithBackoff).  apiKeySet is the truthiness of the GEMINI_API_KEY
environment variable.  A missing logoData throws reading data; a missing
logoData.data throws calling includes on undefined; a callApiWithBackoff
that fell through its loop returns undefined, and reading candidates on
it throws. -/
def part001_handler (apiKeySet : Bool) (ev : Event) (script : Nat → Attempt) : HandlerRun :=
  if ev.httpMethod = sOPTIONS then
    { resp := { statusCode := 200, headers := CORS_HEADERS, body := RespBody.noBody },
      fetchCount := 0, payload := none }
  else if ev.httpMethod ≠ sPOST then
    { resp := { statusCode := 405, headers := CORS_HEADERS, body := RespBody.text msgMethodNotAllowed },
      fetchCount := 0, payload := none }
  else if apiKeySet = false then
    { resp := { statusCode := 500, headers := CORS_HEADERS, body := RespBody.jsonError msgApiKeyMissing },
      fetchCount := 0, payload := none }
  else
    match ev.body with
    | none =>
        { resp := backoffCatchResponse (JsError.jsonParseError "Unexpected token".data),
          fetchCount := 0, payload := none }
    | some b =>
        if truthyStr b.prompt = false then
          { resp := { statusCode := 400, headers := CORS_HEADERS, body := RespBody.text msgMissingPrompt },
            fetchCount := 0, payload := none }
        else
          match b.logoData with
          | none =>
              { resp := backoffCatchResponse (JsError.typeError "data".data),
                fetchCount := 0, payload := none }
          | some ld =>
              match ld.data with
              | none =>
                  { resp := backoffCatchResponse (JsError.typeError "includes".data),
                    fetchCount := 0, payload := none }
              | some d =>
                  match (callApiWithBackoff script 3).1 with
                  | CallOutcome.thrown e =>
                      { resp := backoffCatchResponse e,
                        fetchCount := (callApiWithBackoff script 3).2,
                        payload := some (UpstreamPayload.generateBody b.prompt ld.mimeType
                          (some (rawBase64DataOf d))) }
                  | CallOutcome.value none =>
                      { resp := backoffCatchResponse (JsError.typeError "candidates".data),
                        fetchCount := (callApiWithBackoff script 3).2,
                        payload := some (UpstreamPayload.generateBody b.prompt ld.mimeType
                          (some (rawBase64DataOf d))) }
                  | CallOutcome.value (some j) =>
                      { resp := part001_handleResponse j,
                        fetchCount := (callApiWithBackoff script 3).2,
                        payload := some (UpstreamPayload.generateBody b.prompt ld.mimeType
                          (some (rawBase64DataOf d))) }

/-- The handler of netlify/functions/generateImage.js (predict endpoint
with callApiWithBackoff; only the prompt is read from the body). -/
def generateImage_handler (apiKeySet : Bool) (ev : Event) (script : Nat → Attempt) : HandlerRun :=
  if ev.httpMethod = sOPTIONS then
    { resp := { statusCode := 200, headers := CORS_HEADERS, body := RespBody.noBody },
      fetchCount := 0, payload := none }
  else if ev.httpMethod ≠ sPOST then
    { resp := { statusCode := 405, headers := CORS_HEADERS, body := RespBody.text msgMethodNotAllowed },
      fetchCount := 0, payload := none }
  else if apiKeySet = false then
    { resp := { statusCode := 500, headers := CORS_HEADERS, body := RespBody.jsonError msgApiKeyMissing },
      fetchCount := 0, payload := none }
  else
    match ev.body with
    | none =>
        { resp := backoffCatchResponse (JsError.jsonParseError "Unexpected token".data),
          fetchCount := 0, payload := none }
    | some b =>
        if truthyStr b.prompt = false then
          { resp := { statusCode := 400, headers := CORS_HEADERS, body := RespBody.text msgMissingPrompt },
            fetchCount := 0, payload := none }
        else
          match (callApiWithBackoff script 3).1 with
          | CallOutcome.thrown e =>
              { resp := backoffCatchResponse e,
                fetchCount := (callApiWithBackoff script 3).2,
                payload := some (UpstreamPayload.predictBody (b.prompt.getD [])) }
          | CallOutcome.value none =>
              { resp := backoffCatchResponse (JsError.typeError "predictions".data),
                fetchCount := (callApiWithBackoff script 3).2,
                payload := some (UpstreamPayload.predictBody (b.prompt.getD [])) }
          | CallOutcome.value (some j) =>
              { resp := generateImage_handleResponse j,
                fetchCount := (callApiWithBackoff script 3).2,
                payload := some (UpstreamPayload.predictBody (b.prompt.getD [])) }

/-- The handler of netlify/functions/generate-jersey.js: OPTIONS first,
then the API-key check and the method check (both without headers), no
prompt validation, a single fetch, the upstream status forwarded on a
non-ok response. -/
def jersey_handler (apiKeySet : Bool) (ev : Event) (script : Nat → Attempt) : HandlerRun :=
  if ev.httpMethod = sOPTIONS then
    { resp := { statusCode := 200, headers := CORS_HEADERS, body := RespBody.noBody },
      fetchCount := 0, payload := none }
  else if apiKeySet = false then
    { resp := { statusCode := 500, headers := [], body := RespBody.jsonError msgApiKeyMissing },
      fetchCount := 0, payload := none }
  else if ev.httpMethod ≠ sPOST then
    { resp := { statusCode := 405, headers := [], body := RespBody.jsonError msgMethodNotAllowed },
      fetchCount := 0, payload := none }
  else
    match ev.body with
    | none =>
        { resp := jerseyCatchResponse (JsError.jsonParseError "Unexpected token".data),
          fetchCount := 0, payload := none }
    | some b =>
        match b.logoData with
        | none =>
            { resp := jerseyCatchResponse (JsError.typeError "mimeType".data),
              fetchCount := 0, payload := none }
        | some ld =>
            match script 0 with
            | Attempt.netThrow msg =>
                { resp := jerseyCatchResponse (JsError.netError msg),
                  fetchCount := 1, payload := some (jersey_payload b.prompt ld) }
            | Attempt.http status bodyText bodyJson =>
                if jsOk status = false then
                  match bodyJson with
                  | none =>
                      { resp := jerseyCatchResponse (JsError.jsonParseError bodyText),
                        fetchCount := 1, payload := some (jersey_payload b.prompt ld) }
                  | some ej =>
                      { resp :=
                          { statusCode := status, headers := ALLOW_ORIGIN_HEADERS,
                            body := RespBody.jsonError
                              (match ej.error with
                               | some ae =>
                                   match ae.message with
                                   | some m => if m.isEmpty then msgJerseyDefault else m
                                   | none => msgJerseyDefault
                               | none => msgJerseyDefault) },
                        fetchCount := 1, payload := some (jersey_payload b.prompt ld) }
                else
                  match bodyJson with
                  | none =>
                      { resp := jerseyCatchResponse (JsError.jsonParseError bodyText),
                        fetchCount := 1, payload := some (jersey_payload b.prompt ld) }
                  | some j =>
                      if truthyStr (extractBase64 j) = true then
                        { resp :=
                            { statusCode := 200, headers := ALLOW_ORIGIN_HEADERS,
                              body := RespBody.jsonBase64 ((extractBase64 j).getD []) },
                          fetchCount := 1, payload := some (jersey_payload b.prompt ld) }
                      else
                        { resp :=
                            { statusCode := 500, headers := ALLOW_ORIGIN_HEADERS,
                              body := RespBody.jsonError msgJerseyNoData },
                          fetchCount := 1, payload := some (jersey_payload b.prompt ld) }

/-- The retry loop of the Apps Script generateImage (src/unnamed/part_000
lines 84-111): a 200 parses and extracts, a 429 retries only while
iterations remain, anything else returns null at once; a parse failure
is caught by the outer catch and also yields null. -/
def appsLoop (script : Nat → Attempt) : Nat → Nat → Option Str × Nat
  | _, 0 => (none, 0)
  | i, fuel + 1 =>
      match script i with
      | Attempt.netThrow _ => (none, 1)
      | Attempt.http code _ bodyJson =>
          if code = 200 then
            match bodyJson with
            | none => (none, 1)
            | some j =>
                match j.predictions with
                | some (p :: _) =>
                    if truthyStr p.bytesBase64Encoded = true then
                      (some (p.bytesBase64Encoded.getD []), 1)
                    else (none, 1)
                | _ => (none, 1)
          else if code = 429 ∧ fuel ≠ 0 then
            let r := appsLoop script (i + 1) fuel
            (r.1, r.2 + 1)
          else (none, 1)

/-- The Apps Script generateImage of src/unnamed/part_000: key check,
empty-prompt check, then the retry loop with MAX_RETRIES = 3. -/
def appsScript_generateImage (apiKeySet : Bool) (prompt : Str) (script : Nat → Attempt) :
    Option Str × Nat :=
  if apiKeySet = false then (none, 0)
  else if prompt.isEmpty then (none, 0)
  else appsLoop script 0 3

/- Concrete inputs used by the closed theorems below. -/

def okInline : InlineData := { mimeType := some ("image/png".data), data := some ("QUJD".data) }

def okJson : UpstreamJson :=
  { predictions := none,
    candidates := some
      [ { content := some { parts := some [ { text := none, inlineData := some okInline } ] },
          safetyRatings := none } ],
    error := none }

def okScript : Nat → Attempt := fun _ => Attempt.http 200 [] (some okJson)

def evPost : Event :=
  { httpMethod := sPOST,
    body := some
      { prompt := some ("p".data),
        logoData := some { mimeType := some ("image/png".data), data := some ("AAAA".data) } } }

def evGet : Event := { httpMethod := "GET".data, body := none }

def script429 : Nat → Attempt := fun _ => Attempt.http 429 ("rate limited".data) none

def c1OkJson : UpstreamJson := { predictions := none, candidates := none, error := none }

def c1Script : Nat → Attempt
  | 0 => Attempt.http 500 ("upstream error body".data) none
  | _ + 1 => Attempt.http 200 [] (some c1OkJson)

def evC3 : Event :=
  { httpMethod := sPOST,
    body := some
      { prompt := some ("p".data),
        logoData := some { mimeType := some ("image/png".data), data := some ("a,b,c".data) } } }

def evC4 : Event :=
  { httpMethod := sPOST,
    body := some
      { prompt := none,
        logoData := some { mimeType := some ("image/png".data), data := some ("AAAA".data) } } }

def evC5 : Event :=
  { httpMethod := sPOST,
    body := some { prompt := some ("p".data), logoData := none } }

def c8Rating : SafetyRating :=
  { category := "HARM_CATEGORY_HATE_SPEECH".data, probability := "HIGH".data }

def c8Json : UpstreamJson :=
  { predictions := none,
    candidates := some [ { content := none, safetyRatings := some [c8Rating] } ],
    error := none }

def c8Script : Nat → Attempt := fun _ => Attempt.http 200 [] (some c8Json)

def c8Message : Str := msgGenerationErrorPre ++ msgFilteredPre ++ safetyRatingJoined [c8Rating]

def emptyCandJson : UpstreamJson :=
  { predictions := none, candidates := some [], error := none }

def emptyCandScript : Nat → Attempt := fun _ => Attempt.http 200 [] (some emptyCandJson)

def emptyImageJson : UpstreamJson :=
  { predictions := some [ { bytesBase64Encoded := some [] } ],
    candidates := none,
    error := none }

def emptyInlineJson : UpstreamJson :=
  { predictions := none,
    candidates := some
      [ { content := some
            { parts := some
                [ { text := none,
                    inlineData := some { mimeType := some ("image/png".data), data := some [] } } ] },
          safetyRatings := none } ],
    error := none }

def emptyImageScript : Nat → Attempt := fun _ => Attempt.http 200 [] (some emptyImageJson)

def emptyInlineScript : Nat → Attempt := fun _ => Attempt.http 200 [] (some emptyInlineJson)

/- Helper lemmas. -/

theorem backoffFrom_fetch_pos (script : Nat → Attempt) (i fuel : Nat) :
    1 ≤ (backoffFrom script i (fuel + 1)).2 := by
  unfold backoffFrom
  cases h : attemptStep (script i) <;> simp [h]
  split <;> simp

/-- C1 counterexample: with retries = 3 and a first upstream status of
500, callApiWithBackoff swallows the External API Error and fetches
again: two network attempts happen and the call ends in success, instead
of failing immediately after the single failing attempt. -/
theorem c1_counterexample :
    callApiWithBackoff c1Script 3 = (CallOutcome.value (some c1OkJson), 2) ∧
    ¬ (callApiWithBackoff c1Script 3).2 = 1 := by
  refine ⟨rfl, ?_⟩
  decide

/-- C1 amended: on a non-429 non-2xx status the wrapper builds the
External API Error carrying the status code and the body text, but it
fails immediately only when that fetch is the final attempt; with at
least two attempts remaining the thrown error is swallowed by the catch,
the loop continues with the next fetch, and at least two fetches are
performed in total. -/
theorem backoffFrom_succ (script : Nat → Attempt) (i fuel : Nat) :
    backoffFrom script i (fuel + 1) =
      match attemptStep (script i) with
      | StepRes.retry429 =>
          ((backoffFrom script (i + 1) fuel).1, (backoffFrom script (i + 1) fuel).2 + 1)
      | StepRes.ret j => (CallOutcome.value (some j), 1)
      | StepRes.thr e =>
          if fuel = 0 then (CallOutcome.thrown e, 1)
          else ((backoffFrom script (i + 1) fuel).1, (backoffFrom script (i + 1) fuel).2 + 1) := by
  rfl

theorem c1_amended (script : Nat → Attempt) (i fuel s : Nat) (b : Str) (oj : Option UpstreamJson)
    (hs : ¬ s = 429) (hok : jsOk s = false) (hsc : script i = Attempt.http s b oj) :
    backoffFrom script i 1 = (CallOutcome.thrown (JsError.apiError s b oj), 1) ∧
    backoffFrom script i (fuel + 2) =
      ((backoffFrom script (i + 1) (fuel + 1)).1, (backoffFrom script (i + 1) (fuel + 1)).2 + 1) ∧
    2 ≤ (backoffFrom script i (fuel + 2)).2 := by
  have hstep : attemptStep (script i) = StepRes.thr (JsError.apiError s b oj) := by
    rw [hsc]
    simp only [attemptStep]
    rw [if_neg hs, if_pos hok]
  have h1 : backoffFrom script i 1 = (CallOutcome.thrown (JsError.apiError s b oj), 1) := by
    have e := backoffFrom_succ script i 0
    rw [hstep] at e
    simpa using e
  have h2 : backoffFrom script i (fuel + 2) =
      ((backoffFrom script (i + 1) (fuel + 1)).1, (backoffFrom script (i + 1) (fuel + 1)).2 + 1) := by
    have e := backoffFrom_succ script i (fuel + 1)
    rw [hstep] at e
    simpa using e
  refine ⟨h1, h2, ?_⟩
  rw [h2]
  have h3 := backoffFrom_fetch_pos script (i + 1) fuel
  simp only []
  omega

theorem c1_amended_witness :
    backoffFrom c1Script 0 1 =
      (CallOutcome.thrown (JsError.apiError 500 ("upstream error body".data) none), 1) ∧
    backoffFrom c1Script 0 3 =
      ((backoffFrom c1Script 1 2).1, (backoffFrom c1Script 1 2).2 + 1) ∧
    2 ≤ (backoffFrom c1Script 0 3).2 :=
  c1_amended c1Script 0 1 500 ("upstream error body".data) none
    (by decide) (by decide) rfl

/-- C2 code-bug evaluation: when every one of the three attempts hits
HTTP 429, callApiWithBackoff performs exactly three fetches, sleeps one
final time, and returns undefined instead of failing with a rate-limit
error; the part_001 handler then throws a TypeError reading candidates
on undefined, and the client receives a generic 500 with the TypeError
message — no rate-limit failure reason ever reaches the client. -/
theorem c2_rate_limit_bug :
    callApiWithBackoff script429 3 = (CallOutcome.value none, 3) ∧
    part001_handler true evPost script429 =
      { resp :=
          { statusCode := 500, headers := CORS_HEADERS,
            body := RespBody.jsonError (msgCatchPre ++ errMessage (JsError.typeError ("candidates".data))) },
        fetchCount := 3,
        payload := some (UpstreamPayload.generateBody (some ("p".data)) (some ("image/png".data))
          (some ("AAAA".data))) } := by
  exact ⟨rfl, rfl⟩

theorem sPOST_ne_sOPTIONS : ¬ sPOST = sOPTIONS := by decide

theorem truthy_some {p : Str} (hpne : ¬ p = []) : truthyStr (some p) = true := by
  cases p with
  | nil => exact absurd rfl hpne
  | cons c cs => rfl

theorem callApi_first_ok (script : Nat → Attempt) (bt : Str) (j : UpstreamJson)
    (hs : script 0 = Attempt.http 200 bt (some j)) :
    callApiWithBackoff script 3 = (CallOutcome.value (some j), 1) := by
  have hstep : attemptStep (script 0) = StepRes.ret j := by rw [hs]; rfl
  have e := backoffFrom_succ script 0 2
  rw [hstep] at e
  exact e

theorem generateImage_reach (ev : Event) (script : Nat → Attempt) (b : RequestBody)
    (hm : ev.httpMethod = sPOST) (hb : ev.body = some b) (hpt : truthyStr b.prompt = true) :
    generateImage_handler true ev script =
      match (callApiWithBackoff script 3).1 with
      | CallOutcome.thrown e =>
          { resp := backoffCatchResponse e, fetchCount := (callApiWithBackoff script 3).2,
            payload := some (UpstreamPayload.predictBody (b.prompt.getD [])) }
      | CallOutcome.value none =>
          { resp := backoffCatchResponse (JsError.typeError ("predictions".data)),
            fetchCount := (callApiWithBackoff script 3).2,
            payload := some (UpstreamPayload.predictBody (b.prompt.getD [])) }
      | CallOutcome.value (some j) =>
          { resp := generateImage_handleResponse j, fetchCount := (callApiWithBackoff script 3).2,
            payload := some (UpstreamPayload.predictBody (b.prompt.getD [])) } := by
  unfold generateImage_handler
  rw [hm, if_neg sPOST_ne_sOPTIONS, if_neg (fun hh : sPOST ≠ sPOST => hh rfl),
      if_neg (by decide : ¬ ((true : Bool) = false))]
  split
  · next heq => rw [hb] at heq; cases heq
  · next b2 heq =>
      rw [hb] at heq
      injection heq with hbb
      subst hbb
      rw [if_neg (by rw [hpt]; decide)]

theorem part001_reach (ev : Event) (script : Nat → Attempt) (b : RequestBody)
    (ld : LogoData) (d : Str)
    (hm : ev.httpMethod = sPOST) (hb : ev.body = some b) (hpt : truthyStr b.prompt = true)
    (hl : b.logoData = some ld) (hd : ld.data = some d) :
    part001_handler true ev script =
      match (callApiWithBackoff script 3).1 with
      | CallOutcome.thrown e =>
          { resp := backoffCatchResponse e, fetchCount := (callApiWithBackoff script 3).2,
            payload := some (UpstreamPayload.generateBody b.prompt ld.mimeType (some (rawBase64DataOf d))) }
      | CallOutcome.value none =>
          { resp := backoffCatchResponse (JsError.typeError ("candidates".data)),
            fetchCount := (callApiWithBackoff script 3).2,
            payload := some (UpstreamPayload.generateBody b.prompt ld.mimeType (some (rawBase64DataOf d))) }
      | CallOutcome.value (some j) =>
          { resp := part001_handleResponse j, fetchCount := (callApiWithBackoff script 3).2,
            payload := some (UpstreamPayload.generateBody b.prompt ld.mimeType (some (rawBase64DataOf d))) } := by
  unfold part001_handler
  rw [hm, if_neg sPOST_ne_sOPTIONS, if_neg (fun hh : sPOST ≠ sPOST => hh rfl),
      if_neg (by decide : ¬ ((true : Bool) = false))]
  split
  · next heq => rw [hb] at heq; cases heq
  · next b2 heq =>
      rw [hb] at heq
      injection heq with hbb
      subst hbb
      rw [if_neg (by rw [hpt]; decide)]
      split
      · next heq2 => rw [hl] at heq2; cases heq2
      · next ld2 heq2 =>
          rw [hl] at heq2
          injection heq2 with hll
          subst hll
          split
          · next heq3 => rw [hd] at heq3; cases heq3
          · next d2 heq3 =>
              rw [hd] at heq3
              injection heq3 with hdd
              subst hdd
              rfl

theorem jersey_ok_response (ev : Event) (script : Nat → Attempt) (b : RequestBody)
    (ld : LogoData) (bt : Str) (j : UpstreamJson)
    (hm : ev.httpMethod = sPOST) (hb : ev.body = some b) (hl : b.logoData = some ld)
    (hs : script 0 = Attempt.http 200 bt (some j)) :
    jersey_handler true ev script =
      (if truthyStr (extractBase64 j) = true then
        { resp :=
            { statusCode := 200, headers := ALLOW_ORIGIN_HEADERS,
              body := RespBody.jsonBase64 ((extractBase64 j).getD []) },
          fetchCount := 1, payload := some (jersey_payload b.prompt ld) }
      else
        { resp :=
            { statusCode := 500, headers := ALLOW_ORIGIN_HEADERS,
              body := RespBody.jsonError msgJerseyNoData },
          fetchCount := 1, payload := some (jersey_payload b.prompt ld) }) := by
  unfold jersey_handler
  rw [hm, if_neg sPOST_ne_sOPTIONS, if_neg (by decide : ¬ ((true : Bool) = false)),
      if_neg (fun hh : sPOST ≠ sPOST => hh rfl)]
  split
  · next heq => rw [hb] at heq; cases heq
  · next b2 heq =>
      rw [hb] at heq
      injection heq with hbb
      subst hbb
      split
      · next heq2 => rw [hl] at heq2; cases heq2
      · next ld2 heq2 =>
          rw [hl] at heq2
          injection heq2 with hll
          subst hll
          rw [hs]
          rfl

theorem splitOn_head (sep : Char) (d : Str) :
    (splitOn sep d).head? = some (takeBeforeChar sep d) := by
  induction d with
  | nil => rfl
  | cons c rest ih =>
      by_cases hc : c = sep
      · simp only [splitOn, takeBeforeChar, if_pos hc]
        rfl
      · simp only [splitOn, takeBeforeChar, if_neg hc]
        cases hsp : splitOn sep rest with
        | nil => rw [hsp] at ih; simp at ih
        | cons g gs =>
            rw [hsp] at ih
            simp only [List.head?_cons, Option.some.injEq] at ih
            simp only [List.head?_cons, Option.some.injEq, ih]

theorem splitOn_cons_of_mem (sep : Char) (d : Str) (h : sep ∈ d) :
    splitOn sep d = takeBeforeChar sep d :: splitOn sep (dropThroughChar sep d) := by
  induction d with
  | nil => cases h
  | cons c rest ih =>
      by_cases hc : c = sep
      · simp only [splitOn, takeBeforeChar, dropThroughChar, if_pos hc]
      · have hmem : sep ∈ rest := by
          cases h with
          | head => exact absurd rfl hc
          | tail _ hm => exact hm
        simp only [splitOn, takeBeforeChar, dropThroughChar, if_neg hc]
        rw [ih hmem]

theorem takeBeforeChar_of_not_mem (sep : Char) (d : Str) (h : ¬ sep ∈ d) :
    takeBeforeChar sep d = d := by
  induction d with
  | nil => rfl
  | cons c rest ih =>
      have hc : ¬ c = sep := by
        intro hh
        apply h
        rw [← hh]
        exact List.mem_cons_self c rest
      simp only [takeBeforeChar, if_neg hc]
      rw [ih (fun hm => h (List.mem_cons_of_mem c hm))]

/-- C3 counterexample: with logoData.data equal to a,b,c (two commas),
the part_001 handler forwards the middle segment b, while the substring
after the first comma is b,c — the forwarded data field does not equal
the substring after the first comma. -/
theorem c3_counterexample :
    (part001_handler true evC3 okScript).payload =
      some (UpstreamPayload.generateBody (some ("p".data)) (some ("image/png".data))
        (some ("b".data))) ∧
    specAfterFirstComma ("a,b,c".data) = "b,c".data ∧
    ¬ ("b".data : Str) = "b,c".data := by
  refine ⟨rfl, rfl, ?_⟩
  decide

/-- C3 amended: when logoData.data contains a comma, part_001 forwards
split(comma)[1], which is the substring after the first comma truncated
at the next comma; it equals the full substring after the first comma
exactly when that substring contains no further comma (true for
well-formed data URIs, whose base64 payload never contains a comma).
The generate-jersey.js handler forwards logoData.data unchanged, with no
stripping at all. -/
theorem c3_amended (d : Str) (h : ',' ∈ d) :
    rawBase64DataOf d = takeBeforeChar ',' (specAfterFirstComma d) ∧
    (¬ ',' ∈ specAfterFirstComma d → rawBase64DataOf d = specAfterFirstComma d) ∧
    (∀ (p : Option Str) (ld : LogoData), forwardedData (jersey_payload p ld) = ld.data) := by
  have key : rawBase64DataOf d = takeBeforeChar ',' (specAfterFirstComma d) := by
    unfold rawBase64DataOf specAfterFirstComma
    rw [if_pos h, splitOn_cons_of_mem ',' d h, List.getD_cons_succ]
    have hh := splitOn_head ',' (dropThroughChar ',' d)
    cases hsp : splitOn ',' (dropThroughChar ',' d) with
    | nil => rw [hsp] at hh; simp at hh
    | cons g gs =>
        rw [hsp] at hh
        simp only [List.head?_cons, Option.some.injEq] at hh
        rw [List.getD_cons_zero, hh]
  refine ⟨key, ?_, ?_⟩
  · intro h2
    rw [key, takeBeforeChar_of_not_mem ',' (specAfterFirstComma d) h2]
  · intro p ld
    rfl

theorem c3_amended_witness :
    rawBase64DataOf ("a,b".data) = takeBeforeChar ',' (specAfterFirstComma ("a,b".data)) ∧
    rawBase64DataOf ("a,b".data) = specAfterFirstComma ("a,b".data) ∧
    forwardedData (jersey_payload (some ("p".data))
      { mimeType := some ("image/png".data), data := some ("d0".data) }) = some ("d0".data) := by
  have h := c3_amended ("a,b".data) (by decide)
  exact ⟨h.1, h.2.1 (by decide), h.2.2 (some ("p".data)) _⟩

/-- C4 counterexample: a POST with no prompt field but with logoData is
forwarded upstream by the generate-jersey.js handler — one fetch happens
and the response is the upstream-driven 200, not a 400. -/
theorem c4_counterexample :
    (jersey_handler true evC4 okScript).resp.statusCode = 200 ∧
    (jersey_handler true evC4 okScript).fetchCount = 1 := by
  exact ⟨rfl, rfl⟩

/-- C4 amended: the generateImage.js and part_001 handlers answer a POST
with missing or empty prompt with a 400 Missing-prompt response and
perform no upstream fetch; the generate-jersey.js handler performs no
prompt validation at all — with logoData absent it returns a 500 from
the thrown TypeError without any upstream fetch, and with logoData
present it forwards the request upstream regardless of the prompt. -/
theorem c4_amended (ev : Event) (script : Nat → Attempt) (b : RequestBody)
    (hm : ev.httpMethod = sPOST) (hb : ev.body = some b) (hp : truthyStr b.prompt = false) :
    (generateImage_handler true ev script).resp.statusCode = 400 ∧
    (generateImage_handler true ev script).resp.body = RespBody.text msgMissingPrompt ∧
    (generateImage_handler true ev script).fetchCount = 0 ∧
    (part001_handler true ev script).resp.statusCode = 400 ∧
    (part001_handler true ev script).resp.body = RespBody.text msgMissingPrompt ∧
    (part001_handler true ev script).fetchCount = 0 ∧
    (b.logoData = none →
      (jersey_handler true ev script).resp.statusCode = 500 ∧
      (jersey_handler true ev script).fetchCount = 0) := by
  have hgi : generateImage_handler true ev script =
      { resp := { statusCode := 400, headers := CORS_HEADERS, body := RespBody.text msgMissingPrompt },
        fetchCount := 0, payload := none } := by
    unfold generateImage_handler
    rw [hm, if_neg sPOST_ne_sOPTIONS, if_neg (fun hh : sPOST ≠ sPOST => hh rfl),
        if_neg (by decide : ¬ ((true : Bool) = false))]
    split
    · next heq => rw [hb] at heq; cases heq
    · next b2 heq =>
        rw [hb] at heq
        injection heq with hbb
        subst hbb
        rw [if_pos hp]
  have hp1 : part001_handler true ev script =
      { resp := { statusCode := 400, headers := CORS_HEADERS, body := RespBody.text msgMissingPrompt },
        fetchCount := 0, payload := none } := by
    unfold part001_handler
    rw [hm, if_neg sPOST_ne_sOPTIONS, if_neg (fun hh : sPOST ≠ sPOST => hh rfl),
        if_neg (by decide : ¬ ((true : Bool) = false))]
    split
    · next heq => rw [hb] at heq; cases heq
    · next b2 heq =>
        rw [hb] at heq
        injection heq with hbb
        subst hbb
        rw [if_pos hp]
  refine ⟨by rw [hgi], by rw [hgi], by rw [hgi], by rw [hp1], by rw [hp1], by rw [hp1], ?_⟩
  intro hnl
  have hj : jersey_handler true ev script =
      { resp := jerseyCatchResponse (JsError.typeError ("mimeType".data)),
        fetchCount := 0, payload := none } := by
    unfold jersey_handler
    rw [hm, if_neg sPOST_ne_sOPTIONS, if_neg (by decide : ¬ ((true : Bool) = false)),
        if_neg (fun hh : sPOST ≠ sPOST => hh rfl)]
    split
    · next heq => rw [hb] at heq; cases heq
    · next b2 heq =>
        rw [hb] at heq
        injection heq with hbb
        subst hbb
        split
        · rfl
        · next ld2 heq2 => rw [hnl] at heq2; cases heq2
  exact ⟨by rw [hj]; rfl, by rw [hj]⟩

theorem c4_amended_witness :
    (generateImage_handler true evC4 okScript).resp.statusCode = 400 ∧
    (part001_handler true evC4 okScript).resp.statusCode = 400 := by
  have h := c4_amended evC4 okScript
    { prompt := none,
      logoData := some { mimeType := some ("image/png".data), data := some ("AAAA".data) } }
    rfl rfl rfl
  exact ⟨h.1, h.2.2.2.1⟩

/-- C5 counterexample: a POST with a non-empty prompt and no logoData is
not accepted by the part_001 handler: reading logoData.data throws, the
response is a 500 and no upstream fetch happens — the request is not
forwarded as a prompt-only payload. -/
theorem c5_counterexample :
    (part001_handler true evC5 okScript).resp.statusCode = 500 ∧
    (part001_handler true evC5 okScript).fetchCount = 0 ∧
    (part001_handler true evC5 okScript).payload = none := by
  exact ⟨rfl, rfl, rfl⟩

/-- C5 amended: only the generateImage.js (predict) handler builds a
prompt-only upstream payload for every non-empty prompt (it never reads
logoData); the two multi-modal handlers require logoData — when it is
absent, part_001 and generate-jersey.js both return a 500 from the
thrown TypeError and make no upstream fetch. -/
theorem c5_amended (ev : Event) (script : Nat → Attempt) (b : RequestBody) (p : Str)
    (hm : ev.httpMethod = sPOST) (hb : ev.body = some b)
    (hp : b.prompt = some p) (hpne : ¬ p = []) :
    (generateImage_handler true ev script).payload = some (UpstreamPayload.predictBody p) ∧
    (b.logoData = none →
      (part001_handler true ev script).resp.statusCode = 500 ∧
      (part001_handler true ev script).fetchCount = 0 ∧
      (jersey_handler true ev script).resp.statusCode = 500 ∧
      (jersey_handler true ev script).fetchCount = 0) := by
  have hpt : truthyStr b.prompt = true := by rw [hp]; exact truthy_some hpne
  constructor
  · rw [generateImage_reach ev script b hm hb hpt, hp]
    cases hcall : (callApiWithBackoff script 3).1 with
    | thrown e => rfl
    | value oj => cases oj with
      | none => rfl
      | some j => rfl
  · intro hnl
    have hpp : part001_handler true ev script =
        { resp := backoffCatchResponse (JsError.typeError ("data".data)),
          fetchCount := 0, payload := none } := by
      unfold part001_handler
      rw [hm, if_neg sPOST_ne_sOPTIONS, if_neg (fun hh : sPOST ≠ sPOST => hh rfl),
          if_neg (by decide : ¬ ((true : Bool) = false))]
      split
      · next heq => rw [hb] at heq; cases heq
      · next b2 heq =>
          rw [hb] at heq
          injection heq with hbb
          subst hbb
          rw [if_neg (by rw [hpt]; decide)]
          split
          · rfl
          · next ld2 heq2 => rw [hnl] at heq2; cases heq2
    have hj : jersey_handler true ev script =
        { resp := jerseyCatchResponse (JsError.typeError ("mimeType".data)),
          fetchCount := 0, payload := none } := by
      unfold jersey_handler
      rw [hm, if_neg sPOST_ne_sOPTIONS, if_neg (by decide : ¬ ((true : Bool) = false)),
          if_neg (fun hh : sPOST ≠ sPOST => hh rfl)]
      split
      · next heq => rw [hb] at heq; cases heq
      · next b2 heq =>
          rw [hb] at heq
          injection heq with hbb
          subst hbb
          split
          · rfl
          · next ld2 heq2 => rw [hnl] at heq2; cases heq2
    exact ⟨by rw [hpp]; rfl, by rw [hpp], by rw [hj]; rfl, by rw [hj]⟩

theorem c5_amended_witness :
    (generateImage_handler true evC5 okScript).payload =
      some (UpstreamPayload.predictBody ("p".data)) ∧
    (part001_handler true evC5 okScript).resp.statusCode = 500 ∧
    (part001_handler true evC5 okScript).fetchCount = 0 := by
  have h := c5_amended evC5 okScript { prompt := some ("p".data), logoData := none } ("p".data)
    rfl rfl rfl (by decide)
  exact ⟨h.1, (h.2 rfl).1, (h.2 rfl).2.1⟩

theorem part001_handleResponse_headers (j : UpstreamJson) :
    (part001_handleResponse j).headers = CORS_HEADERS := by
  unfold part001_handleResponse
  split
  · rfl
  · split
    · rfl
    · rfl

theorem generateImage_handleResponse_headers (j : UpstreamJson) :
    (generateImage_handleResponse j).headers = CORS_HEADERS := by
  unfold generateImage_handleResponse
  split
  · split
    · rfl
    · rfl
  · rfl

theorem generateImage_headers (key : Bool) (ev : Event) (script : Nat → Attempt) :
    (generateImage_handler key ev script).resp.headers = CORS_HEADERS := by
  unfold generateImage_handler
  split
  · rfl
  · split
    · rfl
    · split
      · rfl
      · split
        · rfl
        · split
          · rfl
          · split
            · rfl
            · rfl
            · next j heq => exact generateImage_handleResponse_headers j

theorem part001_headers (key : Bool) (ev : Event) (script : Nat → Attempt) :
    (part001_handler key ev script).resp.headers = CORS_HEADERS := by
  unfold part001_handler
  split
  · rfl
  · split
    · rfl
    · split
      · rfl
      · split
        · rfl
        · split
          · rfl
          · split
            · rfl
            · split
              · rfl
              · split
                · rfl
                · rfl
                · next j heq => exact part001_handleResponse_headers j

theorem jersey_headers_post (ev : Event) (script : Nat → Attempt)
    (hm : ev.httpMethod = sPOST) :
    (jersey_handler true ev script).resp.headers = ALLOW_ORIGIN_HEADERS := by
  unfold jersey_handler
  rw [hm, if_neg sPOST_ne_sOPTIONS, if_neg (by decide : ¬ ((true : Bool) = false)),
      if_neg (fun hh : sPOST ≠ sPOST => hh rfl)]
  split
  · rfl
  · split
    · rfl
    · split
      · rfl
      · split
        · split
          · rfl
          · rfl
        · split
          · rfl
          · split
            · rfl
            · rfl

theorem jersey_headers_options (key : Bool) (ev : Event) (script : Nat → Attempt)
    (hm : ev.httpMethod = sOPTIONS) :
    (jersey_handler key ev script).resp.headers = CORS_HEADERS := by
  unfold jersey_handler
  rw [hm, if_pos rfl]

/-- C6 counterexample: with the API key unset, a POST to the
generate-jersey.js handler is answered 500 with an empty header object —
the allow-origin header is absent from that branch (and likewise from
its 405 branch). -/
theorem c6_counterexample :
    (jersey_handler false evPost okScript).resp.statusCode = 500 ∧
    (jersey_handler false evPost okScript).resp.headers = [] ∧
    hasAllowOrigin (jersey_handler false evPost okScript).resp.headers = false := by
  exact ⟨rfl, rfl, rfl⟩

/-- C6 amended: every response of the generateImage.js and part_001
handlers, in every branch, carries the CORS allow-origin header; the
generate-jersey.js handler carries it on its preflight branch and on
every branch reached by a POST with the API key configured, but its
missing-configuration 500 branch and its method-rejection 405 branch
return no headers at all. -/
theorem c6_amended (key : Bool) (ev : Event) (script : Nat → Attempt) :
    hasAllowOrigin (generateImage_handler key ev script).resp.headers = true ∧
    hasAllowOrigin (part001_handler key ev script).resp.headers = true ∧
    (ev.httpMethod = sPOST → hasAllowOrigin (jersey_handler true ev script).resp.headers = true) ∧
    (ev.httpMethod = sOPTIONS → hasAllowOrigin (jersey_handler key ev script).resp.headers = true) := by
  refine ⟨?_, ?_, ?_, ?_⟩
  · rw [generateImage_headers]; decide
  · rw [part001_headers]; decide
  · intro hm; rw [jersey_headers_post ev script hm]; decide
  · intro hm; rw [jersey_headers_options key ev script hm]; decide

theorem c6_amended_witness :
    hasAllowOrigin (generateImage_handler true evPost okScript).resp.headers = true ∧
    hasAllowOrigin (jersey_handler true evPost okScript).resp.headers = true := by
  have h := c6_amended true evPost okScript
  exact ⟨h.1, h.2.2.1 rfl⟩

/-- C7: an upstream 200 whose parsed body has an empty candidates list
makes the part_001 handler return the 400 InputRejected response (the
safety-guidelines message), not the 500 SafetyFiltered response. -/
theorem c7_confirmed (ev : Event) (script : Nat → Attempt) (b : RequestBody) (p : Str)
    (ld : LogoData) (d bt : Str) (j : UpstreamJson)
    (hm : ev.httpMethod = sPOST) (hb : ev.body = some b) (hp : b.prompt = some p)
    (hpne : ¬ p = []) (hl : b.logoData = some ld) (hd : ld.data = some d)
    (hs : script 0 = Attempt.http 200 bt (some j)) (hc : j.candidates = some []) :
    (part001_handler true ev script).resp =
      { statusCode := 400, headers := CORS_HEADERS,
        body := RespBody.jsonError msgInputRejected } := by
  have hpt : truthyStr b.prompt = true := by rw [hp]; exact truthy_some hpne
  rw [part001_reach ev script b ld d hm hb hpt hl hd, callApi_first_ok script bt j hs]
  show part001_handleResponse j = _
  have hx : extractBase64 j = none := by
    unfold extractBase64
    rw [hc]
    rfl
  unfold part001_handleResponse
  rw [hx, hc]
  rfl

theorem c7_confirmed_witness :
    (part001_handler true evPost emptyCandScript).resp =
      { statusCode := 400, headers := CORS_HEADERS,
        body := RespBody.jsonError msgInputRejected } :=
  c7_confirmed evPost emptyCandScript
    { prompt := some ("p".data),
      logoData := some { mimeType := some ("image/png".data), data := some ("AAAA".data) } }
    ("p".data) { mimeType := some ("image/png".data), data := some ("AAAA".data) }
    ("AAAA".data) [] emptyCandJson rfl rfl rfl (by decide) rfl rfl rfl rfl

theorem substr_refl (l : Str) : l <:+: l := ⟨[], [], by simp⟩

theorem substr_append_left (u : Str) {x s : Str} (h : x <:+: s) : x <:+: u ++ s := by
  obtain ⟨a, b2, hh⟩ := h
  exact ⟨u ++ a, b2, by rw [← hh]; simp [List.append_assoc]⟩

theorem substr_trans {a b c : Str} (h1 : a <:+: b) (h2 : b <:+: c) : a <:+: c := by
  obtain ⟨u, v, hb2⟩ := h1
  obtain ⟨q1, q2, hc2⟩ := h2
  exact ⟨q1 ++ u, v ++ q2, by rw [← hc2, ← hb2]; simp [List.append_assoc]⟩

theorem substr_joinSep (sep : Str) (l : List Str) (x : Str) (hx : x ∈ l) :
    x <:+: joinSep sep l := by
  induction l with
  | nil => cases hx
  | cons y ys ih =>
      cases hx with
      | head =>
          cases ys with
          | nil => exact substr_refl x
          | cons z zs =>
              show x <:+: x ++ sep ++ joinSep sep (z :: zs)
              exact ⟨[], sep ++ joinSep sep (z :: zs), by simp [List.append_assoc]⟩
      | tail _ hmem =>
          cases ys with
          | nil => cases hmem
          | cons z zs =>
              show x <:+: y ++ sep ++ joinSep sep (z :: zs)
              have hrec := ih hmem
              rw [List.append_assoc]
              exact substr_append_left y (substr_append_left sep hrec)

theorem probability_substr_fmt (r : SafetyRating) : r.probability <:+: fmtRating r :=
  ⟨lastSeg r.category ++ ": ".data, [], by simp [fmtRating, List.append_assoc]⟩

theorem fmtRating_ne_nil (r : SafetyRating) : ¬ fmtRating r = [] := by
  intro hcontra
  have hlen := congrArg List.length hcontra
  simp only [fmtRating, List.length_append, List.length_cons, List.length_nil] at hlen
  omega

theorem joinSep_ne_nil_head (sep : Str) (x : Str) (xs : List Str) (hx : ¬ x = []) :
    ¬ joinSep sep (x :: xs) = [] := by
  cases xs with
  | nil => exact hx
  | cons y ys =>
      show ¬ x ++ sep ++ joinSep sep (y :: ys) = []
      intro hcontra
      have hlen := congrArg List.length hcontra
      simp only [List.length_append, List.length_nil] at hlen
      have hx0 : x.length = 0 := by omega
      exact hx (List.eq_nil_of_length_eq_zero hx0)

theorem safetyRatingJoined_ne_nil (rs : List SafetyRating) (h : ¬ rs = []) :
    ¬ safetyRatingJoined rs = [] := by
  cases rs with
  | nil => exact absurd rfl h
  | cons r rs2 =>
      show ¬ joinSep ("; ".data) (fmtRating r :: rs2.map fmtRating) = []
      exact joinSep_ne_nil_head _ _ _ (fmtRating_ne_nil r)

theorem part001_safety_response (j : UpstreamJson) (c : Candidate) (cs : List Candidate)
    (rs : List SafetyRating)
    (hnoimg : extractBase64 j = none) (hc : j.candidates = some (c :: cs))
    (hr : c.safetyRatings = some rs) (hne : ¬ rs = []) :
    part001_handleResponse j =
      { statusCode := 500, headers := CORS_HEADERS,
        body := RespBody.jsonError (msgGenerationErrorPre ++
          (msgFilteredPre ++ safetyRatingJoined rs)) } := by
  unfold part001_handleResponse
  rw [hnoimg, hc]
  rw [if_neg (by decide : ¬ (truthyStr none = true))]
  simp only [Option.getD_some, List.length_cons, List.head?_cons, hr, Option.map_some']
  rw [if_neg (by simp : ¬ (cs.length + 1 = 0))]
  unfold noImageErrorMessage
  rw [if_pos (truthy_some (safetyRatingJoined_ne_nil rs hne))]
  rfl

set_option maxRecDepth 10000 in
/-- C8 counterexample: for a candidate whose single safety rating has
category HARM_CATEGORY_HATE_SPEECH and probability HIGH, the part_001
error body is Generation Error: Image was filtered by safety systems.
Ratings: SPEECH: HIGH — only the last underscore-separated segment of
the category appears, so the error string does not contain the rating
category itself. -/
theorem c8_counterexample :
    (part001_handler true evPost c8Script).resp.body = RespBody.jsonError c8Message ∧
    ¬ ("HARM_CATEGORY_HATE_SPEECH".data <:+: c8Message) := by
  constructor
  · rfl
  · decide

/-- C8 amended: when the first candidate carries a non-empty
safetyRatings list and no inline image data, the error string returned
to the client contains, for every rating, the last underscore-separated
segment of its category followed by a colon and its probability (so
every probability occurs verbatim, but a category containing an
underscore appears only by its final segment, not in full). -/
theorem c8_amended (ev : Event) (script : Nat → Attempt) (b : RequestBody) (p : Str)
    (ld : LogoData) (d bt : Str) (j : UpstreamJson) (c : Candidate) (cs : List Candidate)
    (rs : List SafetyRating)
    (hm : ev.httpMethod = sPOST) (hb : ev.body = some b) (hp : b.prompt = some p)
    (hpne : ¬ p = []) (hl : b.logoData = some ld) (hd : ld.data = some d)
    (hs : script 0 = Attempt.http 200 bt (some j))
    (hnoimg : extractBase64 j = none) (hc : j.candidates = some (c :: cs))
    (hr : c.safetyRatings = some rs) (hne : ¬ rs = []) :
    (part001_handler true ev script).resp.body =
      RespBody.jsonError (msgGenerationErrorPre ++ (msgFilteredPre ++ safetyRatingJoined rs)) ∧
    ∀ r, r ∈ rs →
      fmtRating r <:+: msgGenerationErrorPre ++ (msgFilteredPre ++ safetyRatingJoined rs) ∧
      r.probability <:+: msgGenerationErrorPre ++ (msgFilteredPre ++ safetyRatingJoined rs) := by
  have hpt : truthyStr b.prompt = true := by rw [hp]; exact truthy_some hpne
  constructor
  · rw [part001_reach ev script b ld d hm hb hpt hl hd, callApi_first_ok script bt j hs]
    show (part001_handleResponse j).body = _
    rw [part001_safety_response j c cs rs hnoimg hc hr hne]
  · intro r hmem
    have hfmt : fmtRating r <:+: safetyRatingJoined rs :=
      substr_joinSep ("; ".data) (rs.map fmtRating) (fmtRating r)
        (List.mem_map_of_mem fmtRating hmem)
    have hfull : fmtRating r <:+: msgGenerationErrorPre ++ (msgFilteredPre ++ safetyRatingJoined rs) :=
      substr_append_left msgGenerationErrorPre (substr_append_left msgFilteredPre hfmt)
    exact ⟨hfull, substr_trans (probability_substr_fmt r) hfull⟩

theorem c8_amended_witness :
    (part001_handler true evPost c8Script).resp.body =
      RespBody.jsonError (msgGenerationErrorPre ++ (msgFilteredPre ++ safetyRatingJoined [c8Rating])) ∧
    fmtRating c8Rating <:+: msgGenerationErrorPre ++ (msgFilteredPre ++ safetyRatingJoined [c8Rating]) ∧
    ("HIGH".data : Str) <:+: msgGenerationErrorPre ++ (msgFilteredPre ++ safetyRatingJoined [c8Rating]) := by
  have h := c8_amended evPost c8Script
    { prompt := some ("p".data),
      logoData := some { mimeType := some ("image/png".data), data := some ("AAAA".data) } }
    ("p".data) { mimeType := some ("image/png".data), data := some ("AAAA".data) } ("AAAA".data)
    [] c8Json { content := none, safetyRatings := some [c8Rating] } [] [c8Rating]
    rfl rfl rfl (by decide) rfl rfl rfl rfl rfl rfl (by decide)
  exact ⟨h.1, (h.2 c8Rating (List.mem_cons_self c8Rating [])).1,
         (h.2 c8Rating (List.mem_cons_self c8Rating [])).2⟩

theorem part001_handleResponse_shape (j : UpstreamJson) :
    (part001_handleResponse j).statusCode = 200 ∨
    isJsonError (part001_handleResponse j).body = true := by
  unfold part001_handleResponse
  split
  · left; rfl
  · split
    · right; rfl
    · right; rfl

theorem generateImage_handleResponse_shape (j : UpstreamJson) :
    (generateImage_handleResponse j).statusCode = 200 ∨
    isJsonError (generateImage_handleResponse j).body = true := by
  unfold generateImage_handleResponse
  split
  · split
    · left; rfl
    · right; rfl
  · right; rfl

/-- C9 counterexample: a GET to the generateImage.js handler is a
failure response (405) whose body is the plain-text string Method Not
Allowed, not a JSON error body. -/
theorem c9_counterexample :
    (generateImage_handler true evGet okScript).resp.statusCode = 405 ∧
    (generateImage_handler true evGet okScript).resp.body = RespBody.text msgMethodNotAllowed ∧
    isJsonError (generateImage_handler true evGet okScript).resp.body = false := by
  exact ⟨rfl, rfl, rfl⟩

/-- C9 amended: every inbound event, whatever the method, body and
upstream behaviour, gets a response (no exception escapes any handler in
the model: every branch, including every thrown JavaScript error, is
mapped to a response); every failure response carries a JSON error body
except the method-rejection branch (405, plain text Method Not Allowed)
and the missing-prompt branch (400, plain text Missing prompt) of the
generateImage.js and part_001 handlers.  The generate-jersey.js handler
always returns either a 200 or a JSON error body. -/
theorem c9_amended (key : Bool) (ev : Event) (script : Nat → Attempt) :
    ((generateImage_handler key ev script).resp.statusCode = 200 ∨
     isJsonError (generateImage_handler key ev script).resp.body = true ∨
     (generateImage_handler key ev script).resp =
       { statusCode := 405, headers := CORS_HEADERS, body := RespBody.text msgMethodNotAllowed } ∨
     (generateImage_handler key ev script).resp =
       { statusCode := 400, headers := CORS_HEADERS, body := RespBody.text msgMissingPrompt }) ∧
    ((part001_handler key ev script).resp.statusCode = 200 ∨
     isJsonError (part001_handler key ev script).resp.body = true ∨
     (part001_handler key ev script).resp =
       { statusCode := 405, headers := CORS_HEADERS, body := RespBody.text msgMethodNotAllowed } ∨
     (part001_handler key ev script).resp =
       { statusCode := 400, headers := CORS_HEADERS, body := RespBody.text msgMissingPrompt }) ∧
    ((jersey_handler key ev script).resp.statusCode = 200 ∨
     isJsonError (jersey_handler key ev script).resp.body = true) := by
  refine ⟨?_, ?_, ?_⟩
  · unfold generateImage_handler
    split
    · exact Or.inl rfl
    · split
      · exact Or.inr (Or.inr (Or.inl rfl))
      · split
        · exact Or.inr (Or.inl rfl)
        · split
          · exact Or.inr (Or.inl rfl)
          · split
            · exact Or.inr (Or.inr (Or.inr rfl))
            · split
              · exact Or.inr (Or.inl rfl)
              · exact Or.inr (Or.inl rfl)
              · next j heq =>
                  rcases generateImage_handleResponse_shape j with h | h
                  · exact Or.inl h
                  · exact Or.inr (Or.inl h)
  · unfold part001_handler
    split
    · exact Or.inl rfl
    · split
      · exact Or.inr (Or.inr (Or.inl rfl))
      · split
        · exact Or.inr (Or.inl rfl)
        · split
          · exact Or.inr (Or.inl rfl)
          · split
            · exact Or.inr (Or.inr (Or.inr rfl))
            · split
              · exact Or.inr (Or.inl rfl)
              · split
                · exact Or.inr (Or.inl rfl)
                · split
                  · exact Or.inr (Or.inl rfl)
                  · exact Or.inr (Or.inl rfl)
                  · next j heq =>
                      rcases part001_handleResponse_shape j with h | h
                      · exact Or.inl h
                      · exact Or.inr (Or.inl h)
  · unfold jersey_handler
    split
    · exact Or.inl rfl
    · split
      · exact Or.inr rfl
      · split
        · exact Or.inr rfl
        · split
          · exact Or.inr rfl
          · split
            · exact Or.inr rfl
            · split
              · exact Or.inr rfl
              · split
                · split
                  · exact Or.inr rfl
                  · exact Or.inr rfl
                · split
                  · exact Or.inr rfl
                  · split
                    · exact Or.inl rfl
                    · exact Or.inr rfl

theorem truthy_some_ne {s : Str} (h : truthyStr (some s) = true) : ¬ s = [] := by
  intro h0
  subst h0
  exact absurd h (by decide)

theorem generateImage_handleResponse_empty (j : UpstreamJson) (pr : Prediction)
    (prs : List Prediction) (hpred : j.predictions = some (pr :: prs))
    (hb64 : truthyStr pr.bytesBase64Encoded = false) :
    generateImage_handleResponse j =
      { statusCode := 500, headers := CORS_HEADERS,
        body := RespBody.jsonError (msgGenerationErrorPre ++
          noImageErrorMessage (safetyRatingOf j)) } := by
  unfold generateImage_handleResponse
  split
  · next p ps heq =>
      rw [hpred] at heq
      injection heq with h1
      injection h1 with h2 h3
      subst h2
      rw [if_neg (by rw [hb64]; decide)]
  · next heq => rfl

theorem extractBase64_candidates {j : UpstreamJson} {s : Str}
    (h : extractBase64 j = some s) : ∃ c cs, j.candidates = some (c :: cs) := by
  unfold extractBase64 at h
  cases hc : j.candidates with
  | none => rw [hc] at h; simp at h
  | some cs2 =>
      rw [hc] at h
      cases cs2 with
      | nil => simp at h
      | cons c cs3 => exact ⟨c, cs3, rfl⟩

theorem part001_handleResponse_500_of_empty (j : UpstreamJson)
    (hx : extractBase64 j = some []) :
    (part001_handleResponse j).statusCode = 500 := by
  obtain ⟨c, cs, hc⟩ := extractBase64_candidates hx
  unfold part001_handleResponse
  rw [hx, hc]
  rw [if_neg (by decide : ¬ (truthyStr (some ([] : Str)) = true))]
  rw [if_neg (by simp : ¬ (((some (c :: cs)).getD []).length = 0))]

theorem appsLoop_succ (script : Nat → Attempt) (i fuel : Nat) :
    appsLoop script i (fuel + 1) =
      match script i with
      | Attempt.netThrow _ => (none, 1)
      | Attempt.http code _ bodyJson =>
          if code = 200 then
            match bodyJson with
            | none => (none, 1)
            | some j =>
                match j.predictions with
                | some (p :: _) =>
                    if truthyStr p.bytesBase64Encoded = true then
                      (some (p.bytesBase64Encoded.getD []), 1)
                    else (none, 1)
                | _ => (none, 1)
          else if code = 429 ∧ fuel ≠ 0 then
            ((appsLoop script (i + 1) fuel).1, (appsLoop script (i + 1) fuel).2 + 1)
          else (none, 1) := by
  rfl

theorem part001_success_u (j : UpstreamJson) (u : Str)
    (h : (part001_handleResponse j).body = RespBody.jsonImageUrl u) :
    ∃ s, ¬ s = [] ∧ u = dataUriPre ++ s := by
  unfold part001_handleResponse at h
  split at h
  · next htr =>
      cases hx : extractBase64 j with
      | none => rw [hx] at htr; exact absurd htr (by decide)
      | some s =>
          rw [hx] at htr h
          refine ⟨s, truthy_some_ne htr, ?_⟩
          simp only [Option.getD_some] at h
          injection h with hu
          exact hu.symm
  · split at h
    · cases h
    · cases h

/-- C10: an upstream 200 whose image field is present but equal to the
empty string takes the failure branch in every variant — generateImage.js
returns 500 with a JSON error body when bytesBase64Encoded is the empty
string ("" is falsy); part_001 and generate-jersey.js return 500 when
the extracted inline data is the empty string; the Apps Script
generateImage returns null; and a part_001 success body with an image
URL carries a non-empty extracted base64 string after the fixed data-URI
prefix. -/
theorem c10_confirmed :
    (∀ (ev : Event) (script : Nat → Attempt) (b : RequestBody) (bt : Str) (j : UpstreamJson)
        (pr : Prediction) (prs : List Prediction),
        ev.httpMethod = sPOST → ev.body = some b → truthyStr b.prompt = true →
        script 0 = Attempt.http 200 bt (some j) →
        j.predictions = some (pr :: prs) → pr.bytesBase64Encoded = some [] →
        (generateImage_handler true ev script).resp.statusCode = 500 ∧
        isJsonError (generateImage_handler true ev script).resp.body = true) ∧
    (∀ (ev : Event) (script : Nat → Attempt) (b : RequestBody) (p : Str) (ld : LogoData)
        (d bt : Str) (j : UpstreamJson),
        ev.httpMethod = sPOST → ev.body = some b → b.prompt = some p → ¬ p = [] →
        b.logoData = some ld → ld.data = some d →
        script 0 = Attempt.http 200 bt (some j) → extractBase64 j = some [] →
        (part001_handler true ev script).resp.statusCode = 500) ∧
    (∀ (ev : Event) (script : Nat → Attempt) (b : RequestBody) (ld : LogoData)
        (bt : Str) (j : UpstreamJson),
        ev.httpMethod = sPOST → ev.body = some b → b.logoData = some ld →
        script 0 = Attempt.http 200 bt (some j) → extractBase64 j = some [] →
        (jersey_handler true ev script).resp =
          { statusCode := 500, headers := ALLOW_ORIGIN_HEADERS,
            body := RespBody.jsonError msgJerseyNoData }) ∧
    (∀ (prompt : Str) (script : Nat → Attempt) (bt : Str) (j : UpstreamJson)
        (pr : Prediction) (prs : List Prediction),
        ¬ prompt = [] → script 0 = Attempt.http 200 bt (some j) →
        j.predictions = some (pr :: prs) → pr.bytesBase64Encoded = some [] →
        appsScript_generateImage true prompt script = (none, 1)) ∧
    (∀ (key : Bool) (ev : Event) (script : Nat → Attempt) (u : Str),
        (part001_handler key ev script).resp.body = RespBody.jsonImageUrl u →
        ∃ s, ¬ s = [] ∧ u = dataUriPre ++ s) := by
  refine ⟨?_, ?_, ?_, ?_, ?_⟩
  · intro ev script b bt j pr prs hm hb hpt hs hpred hb64
    rw [generateImage_reach ev script b hm hb hpt, callApi_first_ok script bt j hs]
    show (generateImage_handleResponse j).statusCode = 500 ∧
         isJsonError (generateImage_handleResponse j).body = true
    rw [generateImage_handleResponse_empty j pr prs hpred (by rw [hb64]; rfl)]
    exact ⟨rfl, rfl⟩
  · intro ev script b p ld d bt j hm hb hp hpne hl hd hs hx
    have hpt : truthyStr b.prompt = true := by rw [hp]; exact truthy_some hpne
    rw [part001_reach ev script b ld d hm hb hpt hl hd, callApi_first_ok script bt j hs]
    show (part001_handleResponse j).statusCode = 500
    exact part001_handleResponse_500_of_empty j hx
  · intro ev script b ld bt j hm hb hl hs hx
    rw [jersey_ok_response ev script b ld bt j hm hb hl hs]
    rw [if_neg (by rw [hx]; decide)]
  · intro prompt script bt j pr prs hpne hs hpred hb64
    unfold appsScript_generateImage
    rw [if_neg (by decide : ¬ ((true : Bool) = false))]
    rw [if_neg (by
      cases prompt with
      | nil => exact absurd rfl hpne
      | cons c cs => simp)]
    rw [appsLoop_succ, hs]
    simp [hpred, hb64, truthyStr]
  · intro key ev script u h
    unfold part001_handler at h
    split at h
    · cases h
    · split at h
      · cases h
      · split at h
        · cases h
        · split at h
          · cases h
          · split at h
            · cases h
            · split at h
              · cases h
              · split at h
                · cases h
                · split at h
                  · cases h
                  · cases h
                  · next j heq => exact part001_success_u j u h

theorem c10_confirmed_witness :
    (generateImage_handler true evPost emptyImageScript).resp.statusCode = 500 ∧
    (part001_handler true evPost emptyInlineScript).resp.statusCode = 500 ∧
    (jersey_handler true evPost emptyInlineScript).resp =
      { statusCode := 500, headers := ALLOW_ORIGIN_HEADERS,
        body := RespBody.jsonError msgJerseyNoData } ∧
    appsScript_generateImage true ("p".data) emptyImageScript = (none, 1) ∧
    (∃ s, ¬ s = [] ∧ ("data:image/png;base64,QUJD".data : Str) = dataUriPre ++ s) := by
  have h := c10_confirmed
  refine ⟨?_, ?_, ?_, ?_, ?_⟩
  · exact (h.1 evPost emptyImageScript
      { prompt := some ("p".data),
        logoData := some { mimeType := some ("image/png".data), data := some ("AAAA".data) } }
      [] emptyImageJson { bytesBase64Encoded := some [] } []
      rfl rfl rfl rfl rfl rfl).1
  · exact h.2.1 evPost emptyInlineScript
      { prompt := some ("p".data),
        logoData := some { mimeType := some ("image/png".data), data := some ("AAAA".data) } }
      ("p".data) { mimeType := some ("image/png".data), data := some ("AAAA".data) }
      ("AAAA".data) [] emptyInlineJson
      rfl rfl rfl (by decide) rfl rfl rfl rfl
  · exact h.2.2.1 evPost emptyInlineScript
      { prompt := some ("p".data),
        logoData := some { mimeType := some ("image/png".data), data := some ("AAAA".data) } }
      { mimeType := some ("image/png".data), data := some ("AAAA".data) }
      [] emptyInlineJson rfl rfl rfl rfl rfl
  · exact h.2.2.2.1 ("p".data) emptyImageScript [] emptyImageJson
      { bytesBase64Encoded := some [] } [] (by decide) rfl rfl rfl
  · exact h.2.2.2.2 true evPost okScript ("data:image/png;base64,QUJD".data) rfl
